import Mathlib

/-!
# A shallow embedding of `internal/objectstore/dynamic_cache.go`

This file embeds the dynamic cache of the octant repository
(`internal/objectstore/dynamic_cache.go`) in Lean 4 and proves properties
about it.  Pure helpers of the Go file become Lean functions; the stateful
pieces (the seen-GVK set, the shared informer factory's stream registry,
probe counters) become explicit state passed through step functions.
Collaborators that live outside the sampled file (the cluster client, the
authorization endpoint, the informer lister) are parameters: functions
supplied by the environment.

Machine details that the claims do not touch (opencensus spans other than
the retry-count annotation, the unstructured conversion at the end of
`Get`, goroutine scheduling) are modelled as pure successes; every branch
and error string of the sampled file is kept.
-/

/-- Errors as produced by the Go code: `kerrors` not-found status errors,
`errors.New` messages, `errors.Wrap` with a context string, and
`errors.Wrapf(err, "... %v", key)` wrappings that embed the request key.
`pkg/errors` wrapping produces a new error value, so a wrapped not-found
error is no longer recognised by `kerrors.IsNotFound`. -/
inductive GoError where
  | notFound : GoError
  | msg (s : String) : GoError
  | wrap (context : String) (inner : GoError) : GoError
  | wrapKey (context : String) (ns apiVersion kind nm : String)
      (inner : GoError) : GoError
deriving Repr, DecidableEq

/-- `kerrors.IsNotFound`: true exactly for the raw apimachinery not-found
status error; wrapping hides it. -/
def GoError.isNotFound : GoError → Bool
  | .notFound => true
  | _ => false

/-- A label set, as the dynamic cache sees labels: a finite map from label
key to label value, modelled as an association list. -/
abbrev Labels : Type := List (String × String)

/-- A label-set selector (`*labels.Set` in the source, turned into a
selector with `AsSelector`): it matches a label map iff every pair of the
set occurs in the map. -/
abbrev Selector : Type := List (String × String)

/-- `selector.Matches(labels)` for a set-based selector. -/
def selectorMatches (sel : Selector) (ls : Labels) : Bool :=
  sel.all fun p => ls.contains p

/-- A group/version/kind triple (`schema.GroupVersionKind`). -/
structure GroupVersionKind where
  Group : String
  Version : String
  Kind : String
deriving Repr, DecidableEq

/-- A group/version/resource triple (`schema.GroupVersionResource`),
the wire-addressable name the client resolves a kind to. -/
structure GroupVersionResource where
  Group : String
  Version : String
  Resource : String
deriving Repr, DecidableEq

/-- `objectstoreutil.Key`: the request descriptor.  `selector` is the
optional `*labels.Set` of the key. -/
structure Key where
  Namespace : String
  APIVersion : String
  Kind : String
  Name : String
  Selector : Option Selector
deriving Repr, DecidableEq

/-- Modelled from the spec: `objectstoreutil.Key.GroupVersionKind`
(`pkg/objectstoreutil`, not included under `src/`).  Per the spec,
identity for caching purposes is the (group, version, kind) triple, read
off the key's apiVersion and kind alone
(`schema.FromAPIVersionAndKind`): an apiVersion of the form
`group/version` splits at the slash, anything else is a bare version with
empty group.  Namespace, name and selector play no part. -/
def Key.GroupVersionKind (k : Key) : GroupVersionKind :=
  match k.APIVersion.toList.splitOn '/' with
  | [g, v] => ⟨String.mk g, String.mk v, k.Kind⟩
  | _ => ⟨"", k.APIVersion, k.Kind⟩

/-- A cached cluster object, as far as this file inspects one: the label
map that `meta.NewAccessor().Labels(object)` reads (`none` models an
object on which the accessor fails), plus an opaque payload standing for
the rest of the structured document. -/
structure Obj where
  labels? : Option Labels
  payload : String
deriving Repr, DecidableEq

/-! ## The retry helper

`Get` wraps its lister read in `retry.Retry(3, time.Second, f)` using
`retry.Stop` (`internal/util/retry`, a repository package not included
under `src/`). -/

/-- The three ways the retried closure can come back to `retry.Retry`:
success, a plain (retryable) error, or a `retry.Stop`-wrapped error. -/
inductive RetrySignal where
  | ok : RetrySignal
  | retryable (e : GoError) : RetrySignal
  | stopped (e : GoError) : RetrySignal
deriving Repr, DecidableEq

/-- Modelled from the spec: the repository's retry helper
`retry.Retry(attempts, sleep, f)` (`internal/util/retry`, not included
under `src/`).  The spec fixes its contract at the `Get` call site: "up
to 3 attempts with a fixed delay (1 second) between attempts", and a
`retry.Stop`-wrapped result halts retrying at once and surfaces the
wrapped error, while a plain error is retried until the attempt budget is
spent and the last error is returned ("retry exhaustion surfaces the last
underlying error").  The closure carries mutable state, threaded here as
`σ`.  Returns the error `retry.Retry` reports (`none` on success), the
final closure state, and the number of sleep gaps taken. -/
def retryRetry {σ : Type} : Nat → (σ → RetrySignal × σ) → σ → Option GoError × σ × Nat
  | 0, f, s =>
    match f s with
    | (.ok, s') => (none, s', 0)
    | (.stopped e, s') => (some e, s', 0)
    | (.retryable e, s') => (some e, s', 0)
  | 1, f, s =>
    match f s with
    | (.ok, s') => (none, s', 0)
    | (.stopped e, s') => (some e, s', 0)
    | (.retryable e, s') => (some e, s', 0)
  | n + 2, f, s =>
    match f s with
    | (.ok, s') => (none, s', 0)
    | (.stopped e, s') => (some e, s', 0)
    | (.retryable _, s') =>
      let r := retryRetry (n + 1) f s'
      (r.1, r.2.1, r.2.2 + 1)

/-- The mutable state of the closure passed to `retry.Retry` inside
`DynamicCache.Get`: the captured `object`, `err` and `retryCount`
variables, plus a count of lister calls made so far (which attempt we are
on). -/
structure GetClosureState where
  calls : Nat
  retryCount : Nat
  objVar : Option Obj
  errVar : Option GoError
deriving Repr, DecidableEq

/-- The closure of `DynamicCache.Get` (dynamic_cache.go:274-285).
`fetch n` is the outcome of the `n`-th `g.Get(key.Name)` call against the
lister (the cache may change between attempts, so the attempt index
matters).  On an error that is *not* a not-found, the closure increments
`retryCount` and returns `retry.Stop(errors.Wrap(err, "lister Get"))`;
a not-found error is returned plainly (hence retried by `retry.Retry`). -/
def getClosure (fetch : Nat → Except GoError Obj) (s : GetClosureState) :
    RetrySignal × GetClosureState :=
  match fetch s.calls with
  | .ok o =>
    (.ok, { s with calls := s.calls + 1, objVar := some o, errVar := none })
  | .error e =>
    let s' := { s with calls := s.calls + 1, objVar := none, errVar := some e }
    if e.isNotFound then
      (.retryable e, s')
    else
      (.stopped (.wrap "lister Get" e), { s' with retryCount := s'.retryCount + 1 })

deriving instance DecidableEq for Except

/-- What a `DynamicCache.Get` call produces, observably: the returned
value or error, the final `retryCount` variable, the retry-count span
annotation (recorded iff `retryCount > 0`, dynamic_cache.go:287-291), the
number of lister calls made, and the seconds of retry sleep taken. -/
structure GetResult where
  result : Except GoError Obj
  retryCount : Nat
  annotatedRetryCount : Option Nat
  fetchCalls : Nat
  sleepSeconds : Nat
deriving Repr, DecidableEq

/-- The fetch phase of `DynamicCache.Get` (dynamic_cache.go:271-316),
after the informer has been resolved and the lister `g` chosen: run the
closure under `retry.Retry(3, time.Second, ...)`; when `retryErr` is
non-nil return the closure's captured `err` variable (the raw last lister
error - note the source returns `err`, not `retryErr`, so the "lister
Get" wrapping is discarded); otherwise re-validate the key's selector, if
any, against the fetched object's labels and return the object.  The
final `ToUnstructured` conversion is modelled as the identity on the
structured document. -/
def DynamicCache.Get (key : Key) (fetch : Nat → Except GoError Obj) : GetResult :=
  let s0 : GetClosureState := ⟨0, 0, none, none⟩
  let r := retryRetry 3 (getClosure fetch) s0
  let retryErr := r.1
  let s := r.2.1
  let sleeps := r.2.2
  let ann := if s.retryCount > 0 then some s.retryCount else none
  let res : Except GoError Obj :=
    if retryErr.isSome then
      .error (s.errVar.getD (.msg ""))
    else
      match s.objVar with
      | none => .error (.msg "")
      | some o =>
        match key.Selector with
        | none => .ok o
        | some sel =>
          match o.labels? with
          | none => .error (.msg "retrieving labels")
          | some ls =>
            if selectorMatches sel ls then .ok o
            else .error (.msg "object found but filtered by selector")
  ⟨res, s.retryCount, ann, s.calls, sleeps⟩

/-! Basic sanity checks of the `Get` model on concrete runs. -/

example :
    DynamicCache.Get ⟨"", "v1", "Pod", "p", none⟩ (fun _ => .ok ⟨some [], "o"⟩) =
      ⟨.ok ⟨some [], "o"⟩, 0, none, 1, 0⟩ := by
  decide

example :
    DynamicCache.Get ⟨"", "v1", "Pod", "p", none⟩ (fun _ => .error .notFound) =
      ⟨.error .notFound, 0, none, 3, 2⟩ := by
  decide

example :
    DynamicCache.Get ⟨"", "v1", "Pod", "p", none⟩
        (fun _ => .error (.msg "conn refused")) =
      ⟨.error (.msg "conn refused"), 1, some 1, 1, 0⟩ := by
  decide

/-! ## The access probe (`checkAccess` and its `checkVerb` closure) -/

/-- `authorizationv1.ResourceAttributes` as filled in by `checkVerb`. -/
structure ResourceAttributes where
  Verb : String
  Group : String
  Version : String
  Resource : String
  Namespace : String
deriving Repr, DecidableEq

/-- `metav1.NamespaceAll`: the all-namespaces scope (the empty string). -/
def NamespaceAll : String := ""

/-- A self-subject access review response, as far as the probe reads it
(`response.Status.Allowed`). -/
structure SSARResponse where
  Allowed : Bool
deriving Repr, DecidableEq

/-- The remote authorization endpoint:
`authClient.SelfSubjectAccessReviews().Create(sar)`, returning a
response or a transport error. -/
abbrev AuthCreateFn : Type := ResourceAttributes → Except GoError SSARResponse

/-- The `resourceAttributes` value `checkVerb` builds
(dynamic_cache.go:82-93): the verb plus the gvr coordinates; the
namespace attribute starts at its zero value and is overwritten with
`metav1.NamespaceAll` whenever the key carries a namespace (the
namespaced check is commented out pending an informer-filter fix). -/
def resourceAttributesFor (key : Key) (gvr : GroupVersionResource)
    (verb : String) : ResourceAttributes :=
  let ra : ResourceAttributes := ⟨verb, gvr.Group, gvr.Version, gvr.Resource, ""⟩
  if key.Namespace ≠ "" then { ra with Namespace := NamespaceAll } else ra

/-- The `checkVerb` closure of `checkAccess` (dynamic_cache.go:81-110),
lifted to a top-level function over the authorization endpoint: build
the access review, send it, report `false` on any error from the send,
otherwise report `response.Status.Allowed`. -/
def checkVerb (authCreate : AuthCreateFn) (key : Key)
    (gvr : GroupVersionResource) (verb : String) : Bool :=
  match authCreate (resourceAttributesFor key gvr verb) with
  | .error _ => false
  | .ok response => response.Allowed

/-- Go's `%t` formatting of a boolean. -/
def goBool : Bool → String
  | true => "true"
  | false => "false"

/-- How a `checkAccess` call ends.  `nilClientUse` is the path where
`client.KubernetesClient()` fails: the source computes
`errors.Wrap(err, "client kubernetes")` but discards it (no `return`,
dynamic_cache.go:76-78) and goes on to call `AuthorizationV1()` on the
nil client, a nil-interface dereference that panics the process. -/
inductive CheckAccessResult where
  | ok : CheckAccessResult
  | denied (message : String) : CheckAccessResult
  | nilClientUse : CheckAccessResult
deriving Repr, DecidableEq

/-- `checkAccess` (dynamic_cache.go:74-129): obtain the Kubernetes
client (on failure the wrapped error is discarded and the nil client is
dereferenced, see `CheckAccessResult.nilClientUse`); probe get, list and
watch through `checkVerb`; if any verb came back false, fail with the
message assembled from the three booleans, otherwise succeed. -/
def checkAccess (kubernetesClient : Except GoError AuthCreateFn) (key : Key)
    (gvr : GroupVersionResource) : CheckAccessResult :=
  match kubernetesClient with
  | .error _ => .nilClientUse
  | .ok authCreate =>
    let g := checkVerb authCreate key gvr "get"
    let l := checkVerb authCreate key gvr "list"
    let w := checkVerb authCreate key gvr "watch"
    if g && l && w then .ok
    else
      .denied ("requires cluster scoped get/list/watch access, have " ++
        "get: " ++ goBool g ++ ", list: " ++ goBool l ++ ", watch: " ++ goBool w)

/-! ## Informer resolution -/

/-- The collaborators a call talks to, and the nil checks the source
performs.  `resourceOf g k` is `client.Resource(gvk.GroupKind())`;
`kubernetesClient` the result of `client.KubernetesClient()`;
`syncAt gvk` the instant (if any) at which the informer for `gvk` starts
reporting `HasSynced`; `stopClosedAt` the instant (if any) at which the
process-wide stop channel `dc.stopCh` closes. -/
structure Env where
  factoryIsNil : Bool
  clientIsNil : Bool
  resourceOf : String → String → Except GoError GroupVersionResource
  kubernetesClient : Except GoError AuthCreateFn
  syncAt : GroupVersionKind → Option Nat
  stopClosedAt : Option Nat

/-- Observable effects accumulated across calls: how many permission
probes (`checkAccess` invocations) have been issued, which resources the
shared informer factory holds a stream for (`factory.ForResource` is
idempotent per resource), and how many initial-sync waits have been
performed. -/
structure World where
  probeCount : Nat
  startedStreams : List GroupVersionResource
  syncWaitCount : Nat
deriving Repr, DecidableEq

/-- How an informer-resolution call ends.  `panicked` stands for the
nil-client dereference inside `checkAccess`; `diverged` for a sync wait
that never returns. -/
inductive CallOutcome where
  | panicked : CallOutcome
  | failed (e : GoError) : CallOutcome
  | diverged : CallOutcome
  | resolved (gvr : GroupVersionResource) : CallOutcome
deriving Repr, DecidableEq

/-- The package-level `currentInformer` function
(dynamic_cache.go:44-72): nil checks, resolve the kind to a resource via
the client, run the access probe (counted as one permission probe), then
obtain the shared informer from the factory (`factory.ForResource(gvr)`
creates the type's stream only if the factory does not already hold
one) and start the factory with the stop channel. -/
def currentInformer (env : Env) (key : Key) (w : World) : CallOutcome × World :=
  if env.factoryIsNil then
    (.failed (.msg "dynamic shared informer factory is nil"), w)
  else if env.clientIsNil then
    (.failed (.msg "cluster client is nil"), w)
  else
    match env.resourceOf key.GroupVersionKind.Group key.GroupVersionKind.Kind with
    | .error e => (.failed (.wrap "client resource" e), w)
    | .ok gvr =>
      match checkAccess env.kubernetesClient key gvr with
      | .nilClientUse => (.panicked, { w with probeCount := w.probeCount + 1 })
      | .denied message =>
        (.failed (.wrap ("check access: " ++ gvr.Resource) (.msg message)),
          { w with probeCount := w.probeCount + 1 })
      | .ok =>
        if gvr ∈ w.startedStreams then
          (.resolved gvr, { w with probeCount := w.probeCount + 1 })
        else
          (.resolved gvr,
            { w with
                probeCount := w.probeCount + 1
                startedStreams := w.startedStreams ++ [gvr] })

/-- The stop channel handed to `kcache.WaitForCacheSync` inside the
method is `ctx.Done()` for `ctx := context.Background()`.  The
background context is never cancelled, so this channel never closes. -/
def contextBackgroundDone : Option Nat := none

/-- `kcache.WaitForCacheSync(stopCh, hasSynced)`: polls until the
informer has synced (`some true`), returns `some false` once the stop
channel closes while still unsynced, and never returns (`none`) when the
informer never syncs and the stop channel never closes.  A channel is
modelled by the instant at which it closes (`none` = never), `hasSynced`
by the instant at which the informer becomes synced. -/
def WaitForCacheSync (stopClosedAt : Option Nat) (syncedAt : Option Nat) :
    Option Bool :=
  match syncedAt, stopClosedAt with
  | some s, some t => some (decide (s ≤ t))
  | some _, none => some true
  | none, some _ => some false
  | none, none => none

/-- The `DynamicCache` state the claims concern: the seen-GVK set
(`seenGVKs`, guarded by `mu`).  The factory, client and stop channel are
carried by `Env`; the mutex is implicit in the sequential step
semantics. -/
structure DynamicCache where
  seenGVKs : List GroupVersionKind
deriving Repr, DecidableEq

/-- The method `(*DynamicCache).currentInformer`
(dynamic_cache.go:173-196), named `currentInformerM` here to keep it
apart from the package-level function it calls: resolve the informer;
then, under the mutex, return at once when the key's GVK is already
seen; otherwise wait for the initial sync with
`kcache.WaitForCacheSync(context.Background().Done(), ...)` - the wait
is tied to the background context, not to `dc.stopCh` - and mark the GVK
seen only when the wait reports success.  `List`, `Get` and `Watch` each
begin by calling this method (dynamic_cache.go:209, 259, 321). -/
def DynamicCache.currentInformerM (env : Env) (key : Key) (dc : DynamicCache)
    (w : World) : CallOutcome × DynamicCache × World :=
  match currentInformer env key w with
  | (.panicked, w) => (.panicked, dc, w)
  | (.failed e, w) => (.failed e, dc, w)
  | (.diverged, w) => (.diverged, dc, w)
  | (.resolved gvr, w) =>
    if key.GroupVersionKind ∈ dc.seenGVKs then (.resolved gvr, dc, w)
    else
      match WaitForCacheSync contextBackgroundDone (env.syncAt key.GroupVersionKind) with
      | none => (.diverged, dc, { w with syncWaitCount := w.syncWaitCount + 1 })
      | some false =>
        (.failed (.msg "shutting down"), dc,
          { w with syncWaitCount := w.syncWaitCount + 1 })
      | some true =>
        (.resolved gvr, ⟨dc.seenGVKs ++ [key.GroupVersionKind]⟩,
          { w with syncWaitCount := w.syncWaitCount + 1 })

/-! ## Concrete fixtures for witnesses and counterexamples -/

/-- An authorization endpoint granting every verb. -/
def authAllowAll : AuthCreateFn := fun _ => .ok ⟨true⟩

/-- An authorization endpoint granting only `get`. -/
def authGetOnly : AuthCreateFn := fun ra => .ok ⟨ra.Verb == "get"⟩

/-- The pods resource. -/
def gvrPods : GroupVersionResource := ⟨"", "v1", "pods"⟩

/-- A fully healthy environment: factory and client present, every kind
resolves to the pods resource, every verb allowed, every informer syncs
at instant 0, the stop channel never closes. -/
def envOK : Env :=
  ⟨false, false, fun _ _ => .ok gvrPods, .ok authAllowAll, fun _ => some 0, none⟩

/-- A plain pod key with no selector. -/
def keyPod : Key := ⟨"default", "v1", "Pod", "pod-1", none⟩

/-- The empty world. -/
def world0 : World := ⟨0, [], 0⟩

/-- A fresh cache with no seen types. -/
def dc0 : DynamicCache := ⟨[]⟩

example :
    DynamicCache.currentInformerM envOK keyPod dc0 world0 =
      (.resolved gvrPods, ⟨[⟨"", "v1", "Pod"⟩]⟩, ⟨1, [gvrPods], 1⟩) := by
  decide

example :
    (DynamicCache.currentInformerM envOK keyPod
        ⟨[⟨"", "v1", "Pod"⟩]⟩ ⟨1, [gvrPods], 1⟩) =
      (.resolved gvrPods, ⟨[⟨"", "v1", "Pod"⟩]⟩, ⟨2, [gvrPods], 1⟩) := by
  decide

/-- The fetch sequence of the C5 counterexample: transient errors on the
first two attempts, success on the third. -/
def fetchTwoTransientThenOk : Nat → Except GoError Obj
  | 0 => .error (.msg "boom")
  | 1 => .error (.msg "boom")
  | _ => .ok ⟨some [], "pod"⟩

/-- A pod key constrained by the selector `app=front`. -/
def keyPodSel : Key := ⟨"default", "v1", "Pod", "pod-1", some [("app", "front")]⟩

/-- An authorization endpoint that is unreachable: every self-subject
access review fails with a transport error. -/
def authUnreachable : AuthCreateFn := fun _ => .error (.msg "timeout")

/-- The C2 failing input: factory and client healthy, every verb
allowed, the shutdown signal already fired (the stop channel closed at
instant 0), and an informer whose initial sync never completes. -/
def envShutdown : Env :=
  ⟨false, false, fun _ _ => .ok gvrPods, .ok authAllowAll, fun _ => none, some 0⟩

/-- The GVK of the pod key. -/
def gvkPod : GroupVersionKind := ⟨"", "v1", "Pod"⟩

/-- Cache state that has already seen the pod GVK. -/
def dcSeen : DynamicCache := ⟨[gvkPod]⟩

/-! ## Behaviour of the `Get` fetch phase -/

/-- A non-not-found lister error on the first attempt reaches the
`retry.Stop` branch: one lister call, no sleep, `retryCount` 1, and the
call surfaces the raw error (the closure's `err` variable). -/
theorem get_stops_on_transient (key : Key) (fetch : Nat → Except GoError Obj)
    (e : GoError) (h1 : fetch 0 = .error e) (h2 : e.isNotFound = false) :
    DynamicCache.Get key fetch = ⟨.error e, 1, some 1, 1, 0⟩ := by
  simp [DynamicCache.Get, retryRetry, getClosure, h1, h2]

/-- A lister that reports not-found on every attempt is retried to the
full budget: three lister calls, two sleep gaps, `retryCount` 0, and the
raw not-found error is surfaced. -/
theorem get_retries_notFound (key : Key) (fetch : Nat → Except GoError Obj)
    (h : ∀ n, fetch n = .error .notFound) :
    DynamicCache.Get key fetch = ⟨.error .notFound, 0, none, 3, 2⟩ := by
  simp [DynamicCache.Get, retryRetry, getClosure, h 0, h 1, h 2, GoError.isNotFound]

/-- A first-attempt success skips all retrying and goes straight to the
selector re-validation. -/
theorem get_first_ok (key : Key) (fetch : Nat → Except GoError Obj) (o : Obj)
    (h : fetch 0 = .ok o) :
    DynamicCache.Get key fetch =
      ⟨match key.Selector with
        | none => .ok o
        | some sel =>
          match o.labels? with
          | none => .error (.msg "retrieving labels")
          | some ls =>
            if selectorMatches sel ls then .ok o
            else .error (.msg "object found but filtered by selector"),
        0, none, 1, 0⟩ := by
  simp [DynamicCache.Get, retryRetry, getClosure, h]

/-! ## Claim C1 - the retry policy of `Get` -/

/-- C1 counterexample: a `Get` whose lister reports not-found on every
attempt makes 3 lister calls and sleeps through 2 one-second gaps - the
not-found result does not terminate the call immediately and a retry
delay is observed, contrary to the claim; symmetrically, a transient
(non-not-found) error is not retried at all: it terminates after a
single call with no delay. -/
theorem C1_counterexample :
    ((DynamicCache.Get keyPod (fun _ => .error .notFound)).fetchCalls = 3 ∧
      (DynamicCache.Get keyPod (fun _ => .error .notFound)).sleepSeconds = 2) ∧
    ((DynamicCache.Get keyPod (fun _ => .error (.msg "conn refused"))).fetchCalls = 1 ∧
      (DynamicCache.Get keyPod (fun _ => .error (.msg "conn refused"))).sleepSeconds = 0) ∧
    ¬ ((DynamicCache.Get keyPod (fun _ => .error .notFound)).fetchCalls = 1 ∧
        (DynamicCache.Get keyPod (fun _ => .error .notFound)).sleepSeconds = 0) := by
  decide

/-- C1 (amended): the internal retry is attempted only on "object not
found" errors: any other (transient) fetch error terminates the call
immediately after the first attempt - the `retry.Stop` branch - with no
retry delay, while a not-found result is retried up to the 3-attempt
budget with a 1-second gap between attempts. -/
theorem C1_get_retry_policy :
    (∀ (key : Key) (fetch : Nat → Except GoError Obj) (e : GoError),
        fetch 0 = .error e → e.isNotFound = false →
        (DynamicCache.Get key fetch).fetchCalls = 1 ∧
        (DynamicCache.Get key fetch).sleepSeconds = 0) ∧
    (∀ (key : Key) (fetch : Nat → Except GoError Obj),
        (∀ n, fetch n = .error .notFound) →
        (DynamicCache.Get key fetch).fetchCalls = 3 ∧
        (DynamicCache.Get key fetch).sleepSeconds = 2) := by
  constructor
  · intro key fetch e h1 h2
    rw [get_stops_on_transient key fetch e h1 h2]
    exact ⟨rfl, rfl⟩
  · intro key fetch h
    rw [get_retries_notFound key fetch h]
    exact ⟨rfl, rfl⟩

/-- C1 witness: both branches of the amended retry policy evaluated at
concrete fetch sequences. -/
theorem C1_get_retry_policy_witness :
    ((DynamicCache.Get keyPod (fun _ => .error (.msg "conn refused"))).fetchCalls = 1 ∧
      (DynamicCache.Get keyPod (fun _ => .error (.msg "conn refused"))).sleepSeconds = 0) ∧
    ((DynamicCache.Get keyPod (fun _ => .error .notFound)).fetchCalls = 3 ∧
      (DynamicCache.Get keyPod (fun _ => .error .notFound)).sleepSeconds = 2) :=
  ⟨C1_get_retry_policy.1 keyPod _ (.msg "conn refused") rfl rfl,
    C1_get_retry_policy.2 keyPod _ (fun _ => rfl)⟩

/-! ## Claim C5 - what `Get` surfaces after retries -/

/-- C5 counterexample: under the code, a fetch sequence that fails
transiently twice and would succeed on the third attempt never reaches
that third attempt - the first transient failure trips `retry.Stop`, the
call ends after one lister call with `retryCount` 1, and the raw error
is surfaced instead of the successful object; in particular no
`retryCount = 2` annotation is ever recorded. -/
theorem C5_counterexample :
    (DynamicCache.Get keyPod fetchTwoTransientThenOk).result =
        .error (.msg "boom") ∧
    (DynamicCache.Get keyPod fetchTwoTransientThenOk).fetchCalls = 1 ∧
    (DynamicCache.Get keyPod fetchTwoTransientThenOk).retryCount = 1 ∧
    ¬ ((DynamicCache.Get keyPod fetchTwoTransientThenOk).result =
          .ok ⟨some [], "pod"⟩ ∧
        (DynamicCache.Get keyPod fetchTwoTransientThenOk).annotatedRetryCount =
          some 2) := by
  decide

/-- C5 (amended): a `Get` never retries past a transient failure: the
first transient (non-not-found) error ends the call with the recorded
retry-count annotation equal to 1, and the error surfaced to the caller
is the raw last underlying lister error - unwrapped, because the source
returns the closure's `err` variable rather than the wrapped `retryErr`;
a `Get` that sees not-found on all 3 attempts surfaces the raw not-found
error with no retry-count annotation. -/
theorem C5_get_surfaced_error :
    (∀ (key : Key) (fetch : Nat → Except GoError Obj) (e : GoError),
        fetch 0 = .error e → e.isNotFound = false →
        (DynamicCache.Get key fetch).result = .error e ∧
        (DynamicCache.Get key fetch).retryCount = 1 ∧
        (DynamicCache.Get key fetch).annotatedRetryCount = some 1) ∧
    (∀ (key : Key) (fetch : Nat → Except GoError Obj),
        (∀ n, fetch n = .error .notFound) →
        (DynamicCache.Get key fetch).result = .error .notFound ∧
        (DynamicCache.Get key fetch).retryCount = 0 ∧
        (DynamicCache.Get key fetch).annotatedRetryCount = none) := by
  constructor
  · intro key fetch e h1 h2
    rw [get_stops_on_transient key fetch e h1 h2]
    exact ⟨rfl, rfl, rfl⟩
  · intro key fetch h
    rw [get_retries_notFound key fetch h]
    exact ⟨rfl, rfl, rfl⟩

/-- C5 witness: both branches of the amended statement evaluated at
concrete fetch sequences. -/
theorem C5_get_surfaced_error_witness :
    ((DynamicCache.Get keyPod (fun _ => .error (.msg "boom"))).result =
        .error (.msg "boom") ∧
      (DynamicCache.Get keyPod (fun _ => .error (.msg "boom"))).retryCount = 1 ∧
      (DynamicCache.Get keyPod (fun _ => .error (.msg "boom"))).annotatedRetryCount =
        some 1) ∧
    ((DynamicCache.Get keyPod (fun _ => .error .notFound)).result =
        .error .notFound ∧
      (DynamicCache.Get keyPod (fun _ => .error .notFound)).retryCount = 0 ∧
      (DynamicCache.Get keyPod (fun _ => .error .notFound)).annotatedRetryCount =
        none) :=
  ⟨C5_get_surfaced_error.1 keyPod _ (.msg "boom") rfl rfl,
    C5_get_surfaced_error.2 keyPod _ (fun _ => rfl)⟩

/-! ## Claim C7 - selector re-validation in `Get` -/

/-- C7: when the raw fetch from the cache succeeds on the first attempt
and the key carries a selector, an object whose labels do not match the
selector is rejected with the filtered-out error - an error distinct
from not-found (both as a value and under `kerrors.IsNotFound`) - while
an object whose labels match is returned. -/
theorem C7_get_selector_revalidation :
    (∀ (key : Key) (sel : Selector) (fetch : Nat → Except GoError Obj)
        (o : Obj) (ls : Labels),
        key.Selector = some sel → fetch 0 = .ok o → o.labels? = some ls →
        selectorMatches sel ls = false →
        (DynamicCache.Get key fetch).result =
          .error (.msg "object found but filtered by selector") ∧
        (DynamicCache.Get key fetch).result ≠ .error .notFound ∧
        (GoError.msg "object found but filtered by selector").isNotFound = false) ∧
    (∀ (key : Key) (sel : Selector) (fetch : Nat → Except GoError Obj)
        (o : Obj) (ls : Labels),
        key.Selector = some sel → fetch 0 = .ok o → o.labels? = some ls →
        selectorMatches sel ls = true →
        (DynamicCache.Get key fetch).result = .ok o) := by
  constructor
  · intro key sel fetch o ls hsel hf hlab hm
    rw [get_first_ok key fetch o hf]
    simp [hsel, hlab, hm, GoError.isNotFound]
  · intro key sel fetch o ls hsel hf hlab hm
    rw [get_first_ok key fetch o hf]
    simp [hsel, hlab, hm]

/-- C7 witness: the selector re-validation evaluated on one object whose
labels miss the selector and one whose labels match it. -/
theorem C7_get_selector_revalidation_witness :
    ((DynamicCache.Get keyPodSel (fun _ => .ok ⟨some [("app", "back")], "o"⟩)).result =
        .error (.msg "object found but filtered by selector") ∧
      (DynamicCache.Get keyPodSel (fun _ => .ok ⟨some [("app", "back")], "o"⟩)).result ≠
        .error .notFound ∧
      (GoError.msg "object found but filtered by selector").isNotFound = false) ∧
    (DynamicCache.Get keyPodSel (fun _ => .ok ⟨some [("app", "front")], "o"⟩)).result =
      .ok ⟨some [("app", "front")], "o"⟩ :=
  ⟨C7_get_selector_revalidation.1 keyPodSel [("app", "front")] _
      ⟨some [("app", "back")], "o"⟩ [("app", "back")] rfl rfl rfl (by decide),
    C7_get_selector_revalidation.2 keyPodSel [("app", "front")] _
      ⟨some [("app", "front")], "o"⟩ [("app", "front")] rfl rfl rfl (by decide)⟩

/-! ## Claim C4 - the access-denial message -/

/-- C4 counterexample: a type granted only `get` is denied with the text
"requires cluster scoped get/list/watch access, have get: true, list:
false, watch: false" - "cluster scoped" rather than "scope-wide", and a
space after each colon - so the message does not have exactly the format
the claim states. -/
theorem C4_counterexample :
    checkAccess (.ok authGetOnly) keyPod gvrPods =
      .denied
        "requires cluster scoped get/list/watch access, have get: true, list: false, watch: false" ∧
    "requires cluster scoped get/list/watch access, have get: true, list: false, watch: false" ≠
      "requires scope-wide get/list/watch access, have get:true, list:false, watch:false" := by
  decide

/-- C4 (amended): whenever at least one of get/list/watch is denied, the
access check fails, and the error text is exactly
"requires cluster scoped get/list/watch access, have get: <b>, list:
<b>, watch: <b>" with the actual boolean per verb (Go `%t`, one space
after each colon); when all three verbs are granted the check
succeeds. -/
theorem C4_access_denied_message :
    (∀ (authCreate : AuthCreateFn) (key : Key) (gvr : GroupVersionResource),
        (checkVerb authCreate key gvr "get" && checkVerb authCreate key gvr "list" &&
            checkVerb authCreate key gvr "watch") = false →
        checkAccess (.ok authCreate) key gvr =
          .denied ("requires cluster scoped get/list/watch access, have " ++
            "get: " ++ goBool (checkVerb authCreate key gvr "get") ++
            ", list: " ++ goBool (checkVerb authCreate key gvr "list") ++
            ", watch: " ++ goBool (checkVerb authCreate key gvr "watch"))) ∧
    (∀ (authCreate : AuthCreateFn) (key : Key) (gvr : GroupVersionResource),
        (checkVerb authCreate key gvr "get" && checkVerb authCreate key gvr "list" &&
            checkVerb authCreate key gvr "watch") = true →
        checkAccess (.ok authCreate) key gvr = .ok) := by
  constructor <;> intro authCreate key gvr h <;> simp [checkAccess, h]

/-- C4 witness: the amended message statement evaluated at the get-only
endpoint, where the three verb probes come back true, false, false. -/
theorem C4_access_denied_message_witness :
    (checkVerb authGetOnly keyPod gvrPods "get" &&
        checkVerb authGetOnly keyPod gvrPods "list" &&
        checkVerb authGetOnly keyPod gvrPods "watch") = false ∧
    checkAccess (.ok authGetOnly) keyPod gvrPods =
      .denied ("requires cluster scoped get/list/watch access, have " ++
        "get: " ++ goBool (checkVerb authGetOnly keyPod gvrPods "get") ++
        ", list: " ++ goBool (checkVerb authGetOnly keyPod gvrPods "list") ++
        ", watch: " ++ goBool (checkVerb authGetOnly keyPod gvrPods "watch")) :=
  ⟨by decide, C4_access_denied_message.1 authGetOnly keyPod gvrPods (by decide)⟩

/-! ## Claim C6 - the dropped client error in `checkAccess` -/

/-- C6: when `client.KubernetesClient()` fails, `checkAccess` does not
return the error.  The source computes
`errors.Wrap(err, "client kubernetes")` but discards the result and
falls through (dynamic_cache.go:76-78), so execution continues into
`k8sClient.AuthorizationV1()` on the nil client - a nil-interface
dereference, not an error return. -/
theorem C6_client_error_dropped :
    ∀ (e : GoError) (key : Key) (gvr : GroupVersionResource),
      checkAccess (.error e) key gvr = .nilClientUse := by
  intro e key gvr
  rfl

/-! ## Claim C9 - a probe transport error reads as denial -/

/-- C9: an error from issuing the self-subject access review makes
`checkVerb` report the verb as denied, and consequently the whole access
check for the type fails with the access-denied message rather than a
transient error. -/
theorem C9_probe_error_is_denial :
    ∀ (authCreate : AuthCreateFn) (key : Key) (gvr : GroupVersionResource)
      (e : GoError),
      authCreate (resourceAttributesFor key gvr "get") = .error e →
      checkVerb authCreate key gvr "get" = false ∧
      checkAccess (.ok authCreate) key gvr =
        .denied ("requires cluster scoped get/list/watch access, have " ++
          "get: " ++ goBool (checkVerb authCreate key gvr "get") ++
          ", list: " ++ goBool (checkVerb authCreate key gvr "list") ++
          ", watch: " ++ goBool (checkVerb authCreate key gvr "watch")) := by
  intro authCreate key gvr e h
  have hg : checkVerb authCreate key gvr "get" = false := by
    simp [checkVerb, h]
  refine ⟨hg, ?_⟩
  simp [checkAccess, hg]

/-- C9 witness: the unreachable endpoint evaluated concretely. -/
theorem C9_probe_error_is_denial_witness :
    checkVerb authUnreachable keyPod gvrPods "get" = false ∧
    checkAccess (.ok authUnreachable) keyPod gvrPods =
      .denied ("requires cluster scoped get/list/watch access, have " ++
        "get: " ++ goBool (checkVerb authUnreachable keyPod gvrPods "get") ++
        ", list: " ++ goBool (checkVerb authUnreachable keyPod gvrPods "list") ++
        ", watch: " ++ goBool (checkVerb authUnreachable keyPod gvrPods "watch")) :=
  C9_probe_error_is_denial authUnreachable keyPod gvrPods (.msg "timeout") rfl

/-! ## Claim C10 - the probe checks the all-namespaces scope -/

/-- C10: for every key carrying a non-empty namespace, the access review
the probe sends has its namespace attribute set to `metav1.NamespaceAll`
(the all-namespaces scope), not to the key's namespace. -/
theorem C10_probe_namespace_is_all :
    ∀ (key : Key) (gvr : GroupVersionResource) (verb : String),
      key.Namespace ≠ "" →
      (resourceAttributesFor key gvr verb).Namespace = NamespaceAll := by
  intro key gvr verb h
  simp [resourceAttributesFor, h]

/-- C10 witness: the namespaced pod key probes at the all-namespaces
scope. -/
theorem C10_probe_namespace_is_all_witness :
    keyPod.Namespace ≠ "" ∧
    (resourceAttributesFor keyPod gvrPods "get").Namespace = NamespaceAll :=
  ⟨by decide, C10_probe_namespace_is_all keyPod gvrPods "get" (by decide)⟩

/-! ## Behaviour of informer resolution -/

/-- Effects of a resolving package-level `currentInformer` call: exactly
one permission probe is issued, the resolved resource's stream exists
afterwards, no second stream is created when one already exists, and the
sync-wait counter is untouched (the function never waits). -/
theorem currentInformer_resolved (env : Env) (key : Key) (w : World)
    (gvr : GroupVersionResource) (w' : World)
    (h : currentInformer env key w = (.resolved gvr, w')) :
    w'.probeCount = w.probeCount + 1 ∧
    gvr ∈ w'.startedStreams ∧
    (gvr ∈ w.startedStreams → w'.startedStreams = w.startedStreams) ∧
    w'.syncWaitCount = w.syncWaitCount := by
  unfold currentInformer at h
  split at h
  · simp at h
  · split at h
    · simp at h
    · split at h
      · simp at h
      · split at h
        · simp at h
        · simp at h
        · split at h
          · rename_i hmem
            simp only [Prod.mk.injEq, CallOutcome.resolved.injEq] at h
            obtain ⟨h1, h2⟩ := h
            subst h1
            subst h2
            exact ⟨rfl, hmem, fun _ => rfl, rfl⟩
          · rename_i hmem
            simp only [Prod.mk.injEq, CallOutcome.resolved.injEq] at h
            obtain ⟨h1, h2⟩ := h
            subst h1
            subst h2
            exact ⟨rfl, by simp, fun hin => absurd hin hmem, rfl⟩

/-- The package-level `currentInformer` never performs a sync wait, on
any path. -/
theorem currentInformer_syncWaitCount (env : Env) (key : Key) (w : World) :
    (currentInformer env key w).2.syncWaitCount = w.syncWaitCount := by
  unfold currentInformer
  split
  · rfl
  · split
    · rfl
    · split
      · rfl
      · split
        · rfl
        · rfl
        · split
          · rfl
          · rfl

/-- The method never removes a GVK from the seen set: every element of
the incoming seen set survives any `currentInformerM` call. -/
theorem currentInformerM_seen_monotone (env : Env) (key : Key)
    (dc : DynamicCache) (w : World) (x : GroupVersionKind)
    (hx : x ∈ dc.seenGVKs) :
    x ∈ (DynamicCache.currentInformerM env key dc w).2.1.seenGVKs := by
  unfold DynamicCache.currentInformerM
  split
  · exact hx
  · exact hx
  · exact hx
  · split
    · exact hx
    · split
      · exact hx
      · exact hx
      · exact List.mem_append_left _ hx

/-- Once the key's GVK is in the seen set, the method leaves the cache
state untouched and performs no sync wait, whatever the resolution
outcome. -/
theorem currentInformerM_skip_when_seen (env : Env) (key : Key)
    (dc : DynamicCache) (w : World)
    (h : key.GroupVersionKind ∈ dc.seenGVKs) :
    (DynamicCache.currentInformerM env key dc w).2.1 = dc ∧
    (DynamicCache.currentInformerM env key dc w).2.2.syncWaitCount =
      w.syncWaitCount := by
  have hw := currentInformer_syncWaitCount env key w
  unfold DynamicCache.currentInformerM
  split
  · rename_i w1 heq
    rw [heq] at hw
    exact ⟨rfl, hw⟩
  · rename_i e w1 heq
    rw [heq] at hw
    exact ⟨rfl, hw⟩
  · rename_i w1 heq
    rw [heq] at hw
    exact ⟨rfl, hw⟩
  · rename_i gvr w1 heq
    rw [heq] at hw
    rw [if_pos h]
    exact ⟨rfl, hw⟩

/-! ## Claim C2 - the sync wait and the shutdown signal -/

/-- C2: the initial-sync wait is not bounded by the shutdown signal.
With the stop channel already closed and the informer never syncing, the
call diverges - the wait never returns, the type is never marked seen
and no ShuttingDown error is produced - because the source hands
`kcache.WaitForCacheSync` the done channel of `context.Background()`,
which never closes, instead of `dc.stopCh`; a wait bounded by the stop
channel would have returned false and produced the "shutting down"
error, as the otherwise-dead branch at dynamic_cache.go:190 expects. -/
theorem C2_sync_wait_ignores_shutdown :
    DynamicCache.currentInformerM envShutdown keyPod dc0 world0 =
      (.diverged, dc0, ⟨1, [gvrPods], 1⟩) ∧
    WaitForCacheSync contextBackgroundDone
      (envShutdown.syncAt keyPod.GroupVersionKind) = none ∧
    WaitForCacheSync envShutdown.stopClosedAt
      (envShutdown.syncAt keyPod.GroupVersionKind) = some false := by
  decide

/-! ## Claim C3 - probe per call, stream and sync once -/

/-- C3 counterexample: two successive successful calls for the same type
issue two permission probes - the access check runs before the seen-GVK
check on every call - refuting "no further permission probes" after the
first call (the stream is nevertheless created only once). -/
theorem C3_counterexample :
    (DynamicCache.currentInformerM envOK keyPod dc0 world0).2.2.probeCount = 1 ∧
    (DynamicCache.currentInformerM envOK keyPod
        (DynamicCache.currentInformerM envOK keyPod dc0 world0).2.1
        (DynamicCache.currentInformerM envOK keyPod dc0 world0).2.2).2.2.probeCount = 2 ∧
    (DynamicCache.currentInformerM envOK keyPod
        (DynamicCache.currentInformerM envOK keyPod dc0 world0).2.1
        (DynamicCache.currentInformerM envOK keyPod dc0 world0).2.2).2.2.startedStreams = [gvrPods] ∧
    ¬ (DynamicCache.currentInformerM envOK keyPod
        (DynamicCache.currentInformerM envOK keyPod dc0 world0).2.1
        (DynamicCache.currentInformerM envOK keyPod dc0 world0).2.2).2.2.probeCount = 1 := by
  decide

/-- C3 (amended): the permission probe is issued on *every* resolving
List/Get/Watch call - first or subsequent - while the underlying watch
stream is created at most once per resource (the shared factory reuses
an existing stream) and the sync wait happens only before the type is
marked seen: a resolving call for an already-seen GVK performs no
further sync wait and leaves the seen set unchanged. -/
theorem C3_probe_every_call_stream_once :
    ∀ (env : Env) (key : Key) (dc : DynamicCache) (w : World)
      (gvr : GroupVersionResource) (dc' : DynamicCache) (w' : World),
      DynamicCache.currentInformerM env key dc w = (.resolved gvr, dc', w') →
      w'.probeCount = w.probeCount + 1 ∧
      gvr ∈ w'.startedStreams ∧
      (gvr ∈ w.startedStreams → w'.startedStreams = w.startedStreams) ∧
      (key.GroupVersionKind ∈ dc.seenGVKs →
        w'.syncWaitCount = w.syncWaitCount ∧ dc' = dc) ∧
      key.GroupVersionKind ∈ dc'.seenGVKs := by
  intro env key dc w gvr dc' w' h
  unfold DynamicCache.currentInformerM at h
  split at h
  · simp at h
  · simp at h
  · simp at h
  · rename_i gvr1 w1 heq
    split at h
    · rename_i hseen
      simp only [Prod.mk.injEq, CallOutcome.resolved.injEq] at h
      obtain ⟨h1, h2, h3⟩ := h
      subst h1
      subst h2
      subst h3
      obtain ⟨hp, hs, hd, hy⟩ := currentInformer_resolved env key w _ _ heq
      exact ⟨hp, hs, hd, fun _ => ⟨hy, rfl⟩, hseen⟩
    · rename_i hseen
      split at h
      · simp at h
      · simp at h
      · simp only [Prod.mk.injEq, CallOutcome.resolved.injEq] at h
        obtain ⟨h1, h2, h3⟩ := h
        subst h1
        subst h2
        subst h3
        obtain ⟨hp, hs, hd, hy⟩ := currentInformer_resolved env key w _ _ heq
        refine ⟨hp, hs, hd, fun hin => absurd hin hseen, ?_⟩
        simp

/-- C3 witness: the amended statement applied to the second of two
successive calls for the pod type - the type is already seen, one
stream exists - showing the probe count still rises from 1 to 2 while
streams and sync waits stay put. -/
theorem C3_probe_every_call_stream_once_witness :
    (⟨2, [gvrPods], 1⟩ : World).probeCount =
        (⟨1, [gvrPods], 1⟩ : World).probeCount + 1 ∧
    gvrPods ∈ (⟨2, [gvrPods], 1⟩ : World).startedStreams ∧
    (gvrPods ∈ (⟨1, [gvrPods], 1⟩ : World).startedStreams →
      (⟨2, [gvrPods], 1⟩ : World).startedStreams =
        (⟨1, [gvrPods], 1⟩ : World).startedStreams) ∧
    (keyPod.GroupVersionKind ∈ (⟨[gvkPod]⟩ : DynamicCache).seenGVKs →
      (⟨2, [gvrPods], 1⟩ : World).syncWaitCount =
          (⟨1, [gvrPods], 1⟩ : World).syncWaitCount ∧
        (⟨[gvkPod]⟩ : DynamicCache) = ⟨[gvkPod]⟩) ∧
    keyPod.GroupVersionKind ∈ (⟨[gvkPod]⟩ : DynamicCache).seenGVKs :=
  C3_probe_every_call_stream_once envOK keyPod ⟨[gvkPod]⟩ ⟨1, [gvrPods], 1⟩
    gvrPods ⟨[gvkPod]⟩ ⟨2, [gvrPods], 1⟩ (by decide)

/-! ## Claim C8 - the seen set is monotone and keyed by GVK -/

/-- C8: the seen-types state is monotone and keyed by (group, version,
kind) only: no call ever removes a seen GVK; two keys agreeing on
apiVersion and kind have the same GVK whatever their namespace, name
and selector; and a call whose GVK is already seen performs no sync
wait and leaves the seen set unchanged. -/
theorem C8_seen_set_monotone_gvk_keyed :
    (∀ (env : Env) (key : Key) (dc : DynamicCache) (w : World)
        (x : GroupVersionKind), x ∈ dc.seenGVKs →
        x ∈ (DynamicCache.currentInformerM env key dc w).2.1.seenGVKs) ∧
    (∀ (av kd ns1 nm1 ns2 nm2 : String) (s1 s2 : Option Selector),
        (Key.mk ns1 av kd nm1 s1).GroupVersionKind =
          (Key.mk ns2 av kd nm2 s2).GroupVersionKind) ∧
    (∀ (env : Env) (key : Key) (dc : DynamicCache) (w : World),
        key.GroupVersionKind ∈ dc.seenGVKs →
        (DynamicCache.currentInformerM env key dc w).2.1 = dc ∧
        (DynamicCache.currentInformerM env key dc w).2.2.syncWaitCount =
          w.syncWaitCount) := by
  refine ⟨currentInformerM_seen_monotone, ?_, currentInformerM_skip_when_seen⟩
  intro av kd ns1 nm1 ns2 nm2 s1 s2
  rfl

/-- C8 witness: the three conjuncts evaluated on the pod type - a seen
GVK survives a further call, two keys differing only in namespace, name
and selector share a GVK, and a call on the seen type neither waits nor
changes the seen set. -/
theorem C8_seen_set_monotone_gvk_keyed_witness :
    gvkPod ∈ (DynamicCache.currentInformerM envOK keyPod dcSeen world0).2.1.seenGVKs ∧
    (Key.mk "ns-a" "v1" "Pod" "a" none).GroupVersionKind =
      (Key.mk "ns-b" "v1" "Pod" "b" (some [("app", "x")])).GroupVersionKind ∧
    ((DynamicCache.currentInformerM envOK keyPod dcSeen world0).2.1 = dcSeen ∧
      (DynamicCache.currentInformerM envOK keyPod dcSeen world0).2.2.syncWaitCount =
        world0.syncWaitCount) :=
  ⟨C8_seen_set_monotone_gvk_keyed.1 envOK keyPod dcSeen world0 gvkPod (by decide),
    C8_seen_set_monotone_gvk_keyed.2.1 "v1" "Pod" "ns-a" "a" "ns-b" "b" none
      (some [("app", "x")]),
    C8_seen_set_monotone_gvk_keyed.2.2 envOK keyPod dcSeen world0 (by decide)⟩
